import Mathlib

/-!
Verification of the session-agent and auth-form logic of the ai-prep-interview
web application.  The agent component wraps a third-party voice SDK: it keeps a
four-value call status, accumulates a transcript from SDK `message` events, and
on call finish forwards the transcript to a backend `createFeedback` action.
The definitions below are a shallow embedding of that component's handlers
(`onMessage`, the `useEffect` bodies, `handleCall`, `handleDisconnect`, the
connect-timeout callback) and of the zod validation schema in `AuthForm`.
Routine `addDebugLog`/`console.log` calls whose only effect is console output
are modelled as `logMsg` actions with the static prefix of the logged string
(dynamic interpolations elided); purely visual JSX is not modelled.
-/

namespace AiPrep

/-- The four call-status values of the agent (`enum CallStatus`). -/
inductive CallStatus
  | INACTIVE
  | CONNECTING
  | ACTIVE
  | FINISHED
  deriving DecidableEq, Repr

/-- Message roles (`"user" | "system" | "assistant"`). -/
inductive Role
  | user
  | system
  | assistant
  deriving DecidableEq, Repr

/-- `interface SavedMessage { role; content }` — one transcript entry. -/
structure SavedMessage where
  role : Role
  content : String
  deriving DecidableEq, Repr

/-- `interface Message` — an SDK message event payload.  `transcriptType` is
an optional field in the source, hence `Option String`. -/
structure Message where
  type : String
  transcriptType : Option String
  role : Role
  transcript : String
  deriving DecidableEq, Repr

/-- The `onMessage` SDK event handler: when the message has
`type === "transcript"` and `transcriptType === "final"` it appends
`{ role: message.role, content: message.transcript }` to the `messages`
state via `setMessages((prev) => [...prev, newMessage])`; otherwise the
state updater is never called and the array is unchanged. -/
def onMessage (message : Message) (prev : List SavedMessage) : List SavedMessage :=
  if message.type = "transcript" ∧ message.transcriptType = some "final" then
    prev ++ [⟨message.role, message.transcript⟩]
  else
    prev

/-- The body of the second `useEffect` that mirrors the last transcript entry
into `lastMessage`: `if (messages.length > 0) setLastMessage(messages[messages.length - 1].content)`.
Returns the new value of the `lastMessage` state. -/
def updateLastMessage (messages : List SavedMessage) (lastMessage : String) : String :=
  match messages.getLast? with
  | some m => m.content
  | none => lastMessage

/-- The `type` prop of the agent (`'generate' | 'interview'`). -/
inductive AgentType
  | generate
  | interview
  deriving DecidableEq, Repr

/-- JavaScript truthiness of a possibly-absent string value (environment
variable, destructured optional field): `undefined` and `""` are falsy. -/
def jsTruthy : Option String → Bool
  | none => false
  | some s => !s.isEmpty

/-- A thrown JavaScript value as discriminated by the catch blocks:
`error instanceof Error` (carrying `.message`), a plain string, or
anything else. -/
inductive JsError
  | errObj (message : String)
  | errString (s : String)
  | errOther
  deriving DecidableEq, Repr

/-- The user-facing message extracted in the `handleCall` catch block:
`error instanceof Error ? error.message : typeof error === 'string' ? error :
'Unhandled error. Check console for details.'`. -/
def errorMessageOf : JsError → String
  | .errObj message => message
  | .errString s => s
  | .errOther => "Unhandled error. Check console for details."

/-- The first argument of a `vapi.start` call: either the value of
`process.env.NEXT_PUBLIC_VAPI_ASSISTANT_ID` together with the
`variableValues` config `{ userName, userid }` (the `generate` branch), or
the imported `interviewer` object with `variableValues: { questions }`
(the `interview` branch). -/
inductive StartArg
  | assistantCall (id : Option String) (userName userId : String)
  | interviewerCall (questions : String)
  deriving DecidableEq, Repr

/-- The observable effects the agent component can perform, in program
order: state updates, timer arming/clearing, SDK calls, user-facing
alerts/toasts, console/debug logs, router navigation, and the
`createFeedback` backend call with its arguments. -/
inductive AgentAction
  | setStatus (s : CallStatus)
  | armConnectTimeout
  | clearConnectTimeout
  | vapiStart (arg : StartArg)
  | vapiStop
  | alertMsg (text : String)
  | toastMsg (text : String)
  | logMsg (text : String)
  | redirect (path : String)
  | feedbackRequest (interviewId userId : String)
      (transcript : List SavedMessage) (feedbackId : Option String)
  deriving DecidableEq, Repr

/-- Whether an action is a `setCallStatus` update. -/
def AgentAction.isSetStatus : AgentAction → Bool
  | .setStatus _ => true
  | _ => false

/-- Whether an action is a `vapi.start` call. -/
def AgentAction.isVapiStart : AgentAction → Bool
  | .vapiStart _ => true
  | _ => false

/-- Whether an action is a browser `alert`. -/
def AgentAction.isAlert : AgentAction → Bool
  | .alertMsg _ => true
  | _ => false

/-- Whether an action is a `toast` notification. -/
def AgentAction.isToast : AgentAction → Bool
  | .toastMsg _ => true
  | _ => false

/-- Whether an action is a console/debug log. -/
def AgentAction.isLog : AgentAction → Bool
  | .logMsg _ => true
  | _ => false

/-- Whether an action is a `router.push` navigation. -/
def AgentAction.isRedirect : AgentAction → Bool
  | .redirect _ => true
  | _ => false

/-- Whether an action is the `createFeedback` backend call. -/
def AgentAction.isFeedbackRequest : AgentAction → Bool
  | .feedbackRequest _ _ _ _ => true
  | _ => false

/-- The two voice-SDK identifier environment variables read by the agent
(`process.env.NEXT_PUBLIC_VAPI_WORKFLOW_ID` and
`process.env.NEXT_PUBLIC_VAPI_ASSISTANT_ID`); `none` models an unset
variable. -/
structure Env where
  workflowId : Option String
  assistantId : Option String
  deriving DecidableEq, Repr

/-- `formattedQuestions` as computed in the `interview` branch of
`handleCall`: `""` when `questions` is absent or empty, otherwise the
questions prefixed with `"- "` and joined by newlines. -/
def formatQuestions : Option (List String) → String
  | some qs =>
      if qs.length > 0 then String.intercalate "\n" (qs.map (fun q => "- " ++ q))
      else ""
  | none => ""

/-- The catch block of `handleCall`: clear the connect timeout, log the
error (debug log and `console.error`; dynamic details elided), reset the
call status to `INACTIVE`, and `alert` a user-friendly message built from
the thrown value. -/
def startFailureActions (e : JsError) : List AgentAction :=
  [.clearConnectTimeout,
   .logMsg "ERROR starting VAPI call: ",
   .logMsg "Error starting VAPI call: ",
   .setStatus .INACTIVE,
   .alertMsg ("Failed to start call: " ++ errorMessageOf e)]

/-- `handleCall`, as the sequence of effects it performs.  Inputs model the
outcomes of the awaited operations: `micOk` is whether
`navigator.mediaDevices.getUserMedia({audio: true})` succeeded, and
`startOutcome` is whether the awaited `vapi.start` resolved or rejected
(with the thrown value).  On mic failure the function alerts and returns
immediately.  Otherwise it sets the status to `CONNECTING`, arms the
10-second connect timeout, and in the `generate` branch throws (into its own
catch block) when `NEXT_PUBLIC_VAPI_WORKFLOW_ID` is unset but then calls
`vapi.start(process.env.NEXT_PUBLIC_VAPI_ASSISTANT_ID, config)`; the
`interview` branch throws when the imported `interviewer` object is falsy
and otherwise calls `vapi.start(interviewer, config)`.  A rejected start is
handled by `startFailureActions`. -/
def handleCall (type : AgentType) (userName userId : String)
    (questions : Option (List String)) (env : Env)
    (micOk : Bool) (interviewerTruthy : Bool)
    (startOutcome : Except JsError Unit) : List AgentAction :=
  if !micOk then
    [.logMsg "Microphone permission error: ",
     .alertMsg "Microphone access is required for the interview. Please grant permission and try again."]
  else
    [.logMsg "Microphone permission granted",
     .setStatus .CONNECTING,
     .armConnectTimeout] ++
    match type with
    | .generate =>
        if !jsTruthy env.workflowId then
          startFailureActions (.errObj "NEXT_PUBLIC_VAPI_WORKFLOW_ID is not set")
        else
          [.vapiStart (.assistantCall env.assistantId userName userId)] ++
          match startOutcome with
          | .ok _ => [.clearConnectTimeout]
          | .error e => startFailureActions e
    | .interview =>
        if !interviewerTruthy then
          startFailureActions (.errObj "Interviewer configuration is not available")
        else
          [.vapiStart (.interviewerCall (formatQuestions questions))] ++
          match startOutcome with
          | .ok _ => [.clearConnectTimeout]
          | .error e => startFailureActions e

/-- The `onError` SDK event handler: it logs the error (debug log plus
`console.error("VAPI Error:", error)`) and performs no other effect. -/
def onErrorActions (message : String) : List AgentAction :=
  [.logMsg ("Error event received: " ++ message),
   .logMsg ("VAPI Error: " ++ message)]

/-- The `{ success, feedbackId }` value resolved by `createFeedback`. -/
structure FeedbackResult where
  success : Bool
  feedbackId : Option String
  deriving DecidableEq, Repr

/-- `handleGenerateFeedback`: calls `createFeedback` with the interview id,
user id, accumulated transcript and optional feedback id; on a resolved
result with truthy `success && id` it navigates to the feedback page,
otherwise (unsuccessful or missing id) it navigates home; a rejected
promise is caught, logged, and also navigates home. -/
def handleGenerateFeedback (interviewId userId : String) (feedbackId : Option String)
    (messages : List SavedMessage)
    (outcome : Except JsError FeedbackResult) : List AgentAction :=
  [.logMsg "Starting feedback generation",
   .feedbackRequest interviewId userId messages feedbackId] ++
  match outcome with
  | .ok r =>
      if r.success && jsTruthy r.feedbackId then
        [.redirect ("/interview/" ++ interviewId ++ "/feedback")]
      else
        [.logMsg "Error saving feedback - redirecting to home", .redirect "/"]
  | .error _ =>
      [.logMsg "Error in handleGenerateFeedback: ",
       .logMsg "Feedback generation error: ",
       .redirect "/"]

/-- The tail of the second `useEffect`: when the call status is `FINISHED`,
a `generate` agent navigates home and an `interview` agent runs
`handleGenerateFeedback` on the accumulated messages; otherwise nothing
happens. -/
def finishedEffect (type : AgentType) (callStatus : CallStatus)
    (interviewId userId : String) (feedbackId : Option String)
    (messages : List SavedMessage)
    (outcome : Except JsError FeedbackResult) : List AgentAction :=
  if callStatus = .FINISHED then
    match type with
    | .generate => [.redirect "/"]
    | .interview => handleGenerateFeedback interviewId userId feedbackId messages outcome
  else []

/-- The occurrences that can change the agent's call status, one per
`setCallStatus` call site: the SDK `call-start` and `call-end` events, a
click on the call button (with the microphone-permission outcome), a
rejected `vapi.start` (the catch block), the connect-timeout callback
firing (carrying the status value its closure captured at the render in
which `handleCall` was created), and a click on the disconnect button. -/
inductive AgentEvent
  | callStartEvt
  | callEndEvt
  | clickCall (micOk : Bool)
  | startFailure
  | timeoutFire (captured : CallStatus)
  | clickDisconnect
  deriving DecidableEq, Repr

/-- How each event updates the call status, read off the `setCallStatus`
call sites: `onCallStart` sets `ACTIVE`, `onCallEnd` sets `FINISHED`,
`handleCall` sets `CONNECTING` after the microphone check succeeds (and
leaves the status unchanged when it fails), the `handleCall` catch block
sets `INACTIVE`, the connect-timeout callback compares its *captured*
status with `CONNECTING` (the stale closure over the `callStatus` render
value) and resets to `INACTIVE` only on a match, and `handleDisconnect`
sets `FINISHED`. -/
def statusStep : CallStatus → AgentEvent → CallStatus
  | _, .callStartEvt => .ACTIVE
  | _, .callEndEvt => .FINISHED
  | s, .clickCall micOk => if micOk then .CONNECTING else s
  | _, .startFailure => .INACTIVE
  | s, .timeoutFire captured => if captured = .CONNECTING then .INACTIVE else s
  | _, .clickDisconnect => .FINISHED

/-- Position of a status in the linear order INACTIVE → CONNECTING →
ACTIVE → FINISHED. -/
def statusOrd : CallStatus → Nat
  | .INACTIVE => 0
  | .CONNECTING => 1
  | .ACTIVE => 2
  | .FINISHED => 3

/-- When a user event can occur, read off the JSX: the call button is
rendered only while `callStatus !== "ACTIVE"`, the disconnect button only
while it is `ACTIVE`; SDK events and the armed timeout can fire at any
time. -/
def eventEnabled : CallStatus → AgentEvent → Prop
  | s, .clickCall _ => s ≠ .ACTIVE
  | s, .clickDisconnect => s = .ACTIVE
  | _, _ => True

/-- The six handler closures created in the mount `useEffect`, one per SDK
event; a fresh set is created at every mount, so two distinct mounts never
share a handler reference. -/
inductive SdkHandler
  | onCallStart
  | onCallEnd
  | onMessage
  | onSpeechStart
  | onSpeechEnd
  | onError
  deriving DecidableEq, Repr

/-- The `vapi.on(event, handler)` calls performed by the mount effect, in
program order. -/
def mountRegistrations : List (String × SdkHandler) :=
  [("call-start", .onCallStart),
   ("call-end", .onCallEnd),
   ("message", .onMessage),
   ("speech-start", .onSpeechStart),
   ("speech-end", .onSpeechEnd),
   ("error", .onError)]

/-- The `vapi.off(event, handler)` calls performed by the effect's cleanup
function, in program order. -/
def cleanupRemovals : List (String × SdkHandler) :=
  [("call-start", .onCallStart),
   ("call-end", .onCallEnd),
   ("message", .onMessage),
   ("speech-start", .onSpeechStart),
   ("speech-end", .onSpeechEnd),
   ("error", .onError)]

/-- The six SDK event names of the external interface. -/
def sdkEventNames : List String :=
  ["call-start", "call-end", "message", "speech-start", "speech-end", "error"]

/-- Running the mount effect against the SDK's listener list: each
`vapi.on` appends one (event, handler) pair. -/
def registerAll (listeners : List (String × SdkHandler)) : List (String × SdkHandler) :=
  mountRegistrations.foldl (fun l p => l ++ [p]) listeners

/-- Running the cleanup function against the SDK's listener list: each
`vapi.off` removes the first occurrence of the given (event, handler)
pair. -/
def unregisterAll (listeners : List (String × SdkHandler)) : List (String × SdkHandler) :=
  cleanupRemovals.foldl (fun l p => l.erase p) listeners

/-- The auth form type (`'sign-in' | 'sign-up'`). -/
inductive FormType
  | signIn
  | signUp
  deriving DecidableEq, Repr

/-- A submitted auth form value; `name` is `none` when the field is absent
from the submission. -/
structure AuthFormInput where
  name : Option String
  email : String
  password : String
  deriving DecidableEq, Repr

/-- `authFormSchema(type)` applied to an input, as a boolean acceptance
check.  `name` is `z.string().min(3)` for `'sign-up'` (absent name
rejected, length below 3 rejected) and `z.string().optional()` for
`'sign-in'` (absent or any string accepted); `email` is
`z.string().email()`, whose library-internal validity test is abstracted as
the parameter `emailOk`; `password` is `z.string().min(passwordMin)`, where
`passwordMin` is 6 in the variant embedded in the agent source bundle and 8
in `src/components/AuthForm.tsx` (the name and email rules are identical in
both variants). -/
def authFormSchemaCheck (emailOk : String → Bool) (passwordMin : Nat)
    (type : FormType) (inp : AuthFormInput) : Bool :=
  (match type with
   | .signUp =>
       match inp.name with
       | some n => decide (3 ≤ n.length)
       | none => false
   | .signIn => true) &&
  emailOk inp.email &&
  decide (passwordMin ≤ inp.password.length)

/-! ## Helper lemmas -/

/-- Folding list-append over a list of registrations appends them in order. -/
theorem foldl_append_eq {α : Type} : ∀ (regs base : List α),
    regs.foldl (fun l p => l ++ [p]) base = base ++ regs := by
  intro regs
  induction regs with
  | nil => intro base; simp
  | cons p rest ih =>
      intro base
      simp only [List.foldl_cons]
      rw [ih]
      simp

/-- Erasing, in order, each element of a freshly appended block removes
exactly that block, provided none of its elements already occurred in the
base list. -/
theorem foldl_erase_append {α : Type} [BEq α] [LawfulBEq α] (base : List α) :
    ∀ regs : List α, (∀ p ∈ regs, p ∉ base) →
      regs.foldl (fun l p => l.erase p) (base ++ regs) = base := by
  intro regs
  induction regs with
  | nil => intro _; simp
  | cons p rest ih =>
      intro h
      simp only [List.foldl_cons]
      rw [List.erase_append_right (p :: rest) (h p (List.mem_cons_self p rest)),
        List.erase_cons_head]
      exact ih (fun q hq => h q (List.mem_cons_of_mem p hq))

/-! ## Claims -/

/-- **C1.** For an `interview` agent, when the call status is `FINISHED` the
finish effect issues exactly one `createFeedback` call, carrying the
accumulated transcript, the interview id and the user id; the final
navigation goes to `/interview/{interviewId}/feedback` exactly when the
result resolved with `success` true and a truthy feedback id, and to the
home page `/` in every other case (unsuccessful result, missing id, or
thrown error); when the status is not `FINISHED` the effect does nothing. -/
theorem C1_feedback_on_finish (interviewId userId : String) (feedbackId : Option String)
    (messages : List SavedMessage) (outcome : Except JsError FeedbackResult) :
    ((finishedEffect .interview .FINISHED interviewId userId feedbackId messages outcome).filter
        AgentAction.isFeedbackRequest
      = [.feedbackRequest interviewId userId messages feedbackId]) ∧
    ((finishedEffect .interview .FINISHED interviewId userId feedbackId messages outcome).getLast?
      = some (.redirect
          (match outcome with
           | .ok r =>
               if r.success && jsTruthy r.feedbackId then
                 "/interview/" ++ interviewId ++ "/feedback"
               else "/"
           | .error _ => "/"))) ∧
    (∀ st : CallStatus, st ≠ .FINISHED →
      finishedEffect .interview st interviewId userId feedbackId messages outcome = []) := by
  refine ⟨?_, ?_, ?_⟩
  · cases outcome with
    | ok r =>
        by_cases hs : r.success && jsTruthy r.feedbackId <;>
          simp [finishedEffect, handleGenerateFeedback, hs, AgentAction.isFeedbackRequest]
    | error e =>
        simp [finishedEffect, handleGenerateFeedback, AgentAction.isFeedbackRequest]
  · cases outcome with
    | ok r =>
        by_cases hs : r.success && jsTruthy r.feedbackId <;>
          simp [finishedEffect, handleGenerateFeedback, hs]
    | error e =>
        simp [finishedEffect, handleGenerateFeedback]
  · intro st hst
    simp [finishedEffect, hst]

/-- Witness for C1: a successful result with feedback id `"f1"` navigates to
the feedback page, and a `CONNECTING` status triggers nothing. -/
theorem C1_feedback_on_finish_witness :
    ((finishedEffect .interview .FINISHED "i1" "u1" none [⟨Role.user, "hi"⟩]
        (.ok ⟨true, some "f1"⟩)).getLast? = some (.redirect "/interview/i1/feedback")) ∧
    finishedEffect .interview .CONNECTING "i1" "u1" none [⟨Role.user, "hi"⟩]
        (.ok ⟨true, some "f1"⟩) = [] := by
  have h := C1_feedback_on_finish "i1" "u1" none [⟨Role.user, "hi"⟩] (.ok ⟨true, some "f1"⟩)
  refine ⟨?_, h.2.2 .CONNECTING (by decide)⟩
  have h2 := h.2.1
  simpa [jsTruthy] using h2

/-- **C2.** The transcript is a linear append-only accumulator: a final
transcript message appends exactly one `{role, content}` entry at the end,
any other message leaves the array unchanged, and in every case the previous
array is a prefix of the new one (no entry is modified, reordered or
removed) and at most one entry is added. -/
theorem C2_transcript_append_only (m : Message) (prev : List SavedMessage) :
    (m.type = "transcript" → m.transcriptType = some "final" →
      onMessage m prev = prev ++ [⟨m.role, m.transcript⟩]) ∧
    (¬(m.type = "transcript" ∧ m.transcriptType = some "final") →
      onMessage m prev = prev) ∧
    prev <+: onMessage m prev ∧
    (onMessage m prev).length ≤ prev.length + 1 := by
  refine ⟨fun h1 h2 => ?_, fun h => ?_, ?_, ?_⟩
  · simp [onMessage, h1, h2]
  · simp [onMessage, h]
  · by_cases h : m.type = "transcript" ∧ m.transcriptType = some "final"
    · rw [onMessage, if_pos h]
      exact ⟨[⟨m.role, m.transcript⟩], rfl⟩
    · rw [onMessage, if_neg h]
  · by_cases h : m.type = "transcript" ∧ m.transcriptType = some "final"
    · simp [onMessage, h]
    · simp [onMessage, h]

/-- Witness for C2 at a concrete final transcript message and a concrete
non-matching message. -/
theorem C2_transcript_append_only_witness :
    onMessage ⟨"transcript", some "final", Role.user, "hello"⟩ [⟨Role.assistant, "hi"⟩]
      = [⟨Role.assistant, "hi"⟩, ⟨Role.user, "hello"⟩] ∧
    onMessage ⟨"status-update", none, Role.system, "x"⟩ [⟨Role.assistant, "hi"⟩]
      = [⟨Role.assistant, "hi"⟩] := by
  constructor
  · exact (C2_transcript_append_only ⟨"transcript", some "final", Role.user, "hello"⟩
      [⟨Role.assistant, "hi"⟩]).1 rfl rfl
  · exact (C2_transcript_append_only ⟨"status-update", none, Role.system, "x"⟩
      [⟨Role.assistant, "hi"⟩]).2.1 (by simp)

/-- **C3.** Evaluation of `handleCall` in the `generate` branch: with both
environment variables set, the argument passed to `vapi.start` is the value
of `NEXT_PUBLIC_VAPI_ASSISTANT_ID` — not the `NEXT_PUBLIC_VAPI_WORKFLOW_ID`
value the surrounding guard validates and the debug logs announce — while
with `NEXT_PUBLIC_VAPI_WORKFLOW_ID` unset the call indeed fails before any
`vapi.start`: the status is reset to `INACTIVE` and an alert is shown. -/
theorem C3_start_uses_assistant_id :
    ((handleCall .generate "Ada" "u1" none ⟨some "wf-123", some "as-456"⟩ true true
        (.ok ())).contains (.vapiStart (.assistantCall (some "as-456") "Ada" "u1")) = true) ∧
    ((handleCall .generate "Ada" "u1" none ⟨some "wf-123", some "as-456"⟩ true true
        (.ok ())).all
        (fun a => !(a == .vapiStart (.assistantCall (some "wf-123") "Ada" "u1"))) = true) ∧
    ((handleCall .generate "Ada" "u1" none ⟨none, some "as-456"⟩ true true
        (.ok ())).contains (.setStatus .INACTIVE) = true) ∧
    ((handleCall .generate "Ada" "u1" none ⟨none, some "as-456"⟩ true true
        (.ok ())).contains
        (.alertMsg "Failed to start call: NEXT_PUBLIC_VAPI_WORKFLOW_ID is not set") = true) ∧
    ((handleCall .generate "Ada" "u1" none ⟨none, some "as-456"⟩ true true
        (.ok ())).all (fun a => !a.isVapiStart) = true) := by
  decide

/-- **C4 (counterexample).** A rejected `vapi.start` while the status is
`CONNECTING` resets it to `INACTIVE`: a transition that moves backwards in
the order INACTIVE → CONNECTING → ACTIVE → FINISHED, refuting the claim
that every transition follows that linear order. -/
theorem C4_counterexample :
    statusStep .CONNECTING .startFailure = .INACTIVE ∧
    ¬ statusOrd .CONNECTING < statusOrd (statusStep .CONNECTING .startFailure) := by
  decide

/-- **C4 (amended).** The call status only takes the four declared values
(immediate from the `CallStatus` type), and every status *change* caused by
an event that can occur in that status is one of: a strictly forward move
in the order INACTIVE → CONNECTING → ACTIVE → FINISHED, a fallback reset to
`INACTIVE` (rejected `vapi.start`, or the connect-timeout firing with
captured status `CONNECTING`), or a transition out of `FINISHED` when a new
call is started or a delayed SDK `call-start` arrives
(FINISHED → CONNECTING or FINISHED → ACTIVE). -/
theorem C4_transitions_forward_or_reset (s : CallStatus) (e : AgentEvent)
    (hen : eventEnabled s e) (h : statusStep s e ≠ s) :
    statusOrd s < statusOrd (statusStep s e) ∨
    statusStep s e = .INACTIVE ∨
    (s = .FINISHED ∧ (statusStep s e = .CONNECTING ∨ statusStep s e = .ACTIVE)) := by
  cases e with
  | callStartEvt => cases s <;> simp_all [statusStep, statusOrd, eventEnabled]
  | callEndEvt => cases s <;> simp_all [statusStep, statusOrd, eventEnabled]
  | clickCall micOk =>
      cases micOk <;> cases s <;> simp_all [statusStep, statusOrd, eventEnabled]
  | startFailure => simp [statusStep]
  | timeoutFire captured =>
      by_cases hc : captured = .CONNECTING <;> cases s <;>
        simp_all [statusStep, statusOrd, eventEnabled]
  | clickDisconnect => cases s <;> simp_all [statusStep, statusOrd, eventEnabled]

/-- Witness for the amended C4 at the concrete transition
INACTIVE → CONNECTING (a successful call-button click). -/
theorem C4_transitions_forward_or_reset_witness :
    statusOrd .INACTIVE < statusOrd (statusStep .INACTIVE (.clickCall true)) ∨
    statusStep .INACTIVE (.clickCall true) = .INACTIVE ∨
    (CallStatus.INACTIVE = .FINISHED ∧
      (statusStep .INACTIVE (.clickCall true) = .CONNECTING ∨
       statusStep .INACTIVE (.clickCall true) = .ACTIVE)) :=
  C4_transitions_forward_or_reset .INACTIVE (.clickCall true) (by simp [eventEnabled])
    (by decide)

/-- **C5.** The connect-timeout callback closes over the `callStatus` value
of the render in which `handleCall` was created.  In the normal flow the
button is clicked while the rendered status is `INACTIVE`, so ten seconds
later — with the current status still `CONNECTING` — the callback compares
its stale captured value (`INACTIVE`) with `CONNECTING`, the comparison
fails, and the status is left at `CONNECTING` instead of being reset; the
reset only happens when the *captured* value was already `CONNECTING`. -/
theorem C5_stale_timeout_leaves_connecting :
    statusStep .CONNECTING (.timeoutFire .INACTIVE) = .CONNECTING ∧
    statusStep .CONNECTING (.timeoutFire .INACTIVE) ≠ .INACTIVE ∧
    statusStep .CONNECTING (.timeoutFire .CONNECTING) = .INACTIVE := by
  decide

/-- **C6 (counterexample).** The SDK `error` event handler at a concrete
error performs exactly two log actions: it shows no alert and no toast, and
performs no status reset and no redirect — refuting the claim that every
SDK error is surfaced to the user via toast/alert with a state-reset or
redirect fallback. -/
theorem C6_counterexample :
    onErrorActions "Meeting has ended"
      = [.logMsg "Error event received: Meeting has ended",
         .logMsg "VAPI Error: Meeting has ended"] ∧
    (onErrorActions "Meeting has ended").all
      (fun a => !a.isAlert && !a.isToast && !a.isSetStatus && !a.isRedirect) = true := by
  exact ⟨rfl, rfl⟩

/-- **C6 (amended).** All three error paths catch and log their error, but
only the `vapi.start` failure path surfaces it to the user (an alert) and
resets the status to `INACTIVE`; the `createFeedback` failure path falls
back to redirecting home without any toast or alert; and the SDK `error`
event handler only logs, with no user-visible surfacing, no state reset and
no redirect. -/
theorem C6_amended_error_handling (message : String) (e : JsError)
    (interviewId userId : String) (feedbackId : Option String)
    (messages : List SavedMessage) :
    ((onErrorActions message).all AgentAction.isLog = true) ∧
    ((onErrorActions message).all
      (fun a => !a.isAlert && !a.isToast && !a.isSetStatus && !a.isRedirect) = true) ∧
    (AgentAction.setStatus .INACTIVE ∈ startFailureActions e) ∧
    (AgentAction.alertMsg ("Failed to start call: " ++ errorMessageOf e)
      ∈ startFailureActions e) ∧
    ((handleGenerateFeedback interviewId userId feedbackId messages (.error e)).getLast?
      = some (.redirect "/")) ∧
    ((handleGenerateFeedback interviewId userId feedbackId messages (.error e)).all
      (fun a => !a.isAlert && !a.isToast) = true) := by
  refine ⟨rfl, rfl, ?_, ?_, ?_, ?_⟩
  · simp [startFailureActions]
  · simp [startFailureActions]
  · simp [handleGenerateFeedback]
  · simp [handleGenerateFeedback, AgentAction.isAlert, AgentAction.isToast]

/-- **C7.** When the microphone permission request fails, `handleCall`
shows an alert and returns immediately: the emitted effects are exactly the
permission-error log and the alert, so in particular no `setCallStatus`
update (the status never becomes `CONNECTING`) and no `vapi.start` call
happens, for either agent type and any environment. -/
theorem C7_mic_denied_no_start (type : AgentType) (userName userId : String)
    (questions : Option (List String)) (env : Env) (interviewerTruthy : Bool)
    (startOutcome : Except JsError Unit) :
    (handleCall type userName userId questions env false interviewerTruthy startOutcome
      = [.logMsg "Microphone permission error: ",
         .alertMsg "Microphone access is required for the interview. Please grant permission and try again."]) ∧
    ((handleCall type userName userId questions env false interviewerTruthy
        startOutcome).all (fun a => !a.isSetStatus && !a.isVapiStart) = true) := by
  exact ⟨rfl, rfl⟩

/-- **C8.** The mount effect registers exactly one handler for each of the
six SDK events, the cleanup function removes exactly the same
(event, handler) pairs, and running registration followed by cleanup
against any SDK listener list that does not already hold these fresh
handler references restores that list exactly. -/
theorem C8_listener_lifecycle (base : List (String × SdkHandler))
    (h : ∀ p ∈ mountRegistrations, p ∉ base) :
    (∀ ev ∈ sdkEventNames,
      (mountRegistrations.filter (fun p => p.1 == ev)).length = 1) ∧
    cleanupRemovals = mountRegistrations ∧
    unregisterAll (registerAll base) = base := by
  refine ⟨by decide, rfl, ?_⟩
  rw [registerAll, foldl_append_eq, unregisterAll]
  exact foldl_erase_append base mountRegistrations h

/-- Witness for C8 against the empty listener list. -/
theorem C8_listener_lifecycle_witness :
    unregisterAll (registerAll []) = [] := by
  have h := C8_listener_lifecycle [] (by simp)
  exact h.2.2

/-- **C9.** Whenever the messages array is non-empty, the `lastMessage`
computed by the mirroring effect equals the `content` of the final element
of the array, whatever its previous value was. -/
theorem C9_last_message_mirrors_tail (messages : List SavedMessage) (old : String)
    (h : messages ≠ []) :
    updateLastMessage messages old = (messages.getLast h).content := by
  unfold updateLastMessage
  rw [List.getLast?_eq_getLast messages h]

/-- Witness for C9 at a concrete two-element transcript. -/
theorem C9_last_message_mirrors_tail_witness :
    updateLastMessage [⟨Role.user, "a"⟩, ⟨Role.assistant, "b"⟩] "stale" = "b" := by
  have h : ([⟨Role.user, "a"⟩, ⟨Role.assistant, "b"⟩] : List SavedMessage) ≠ [] := by simp
  rw [C9_last_message_mirrors_tail [⟨Role.user, "a"⟩, ⟨Role.assistant, "b"⟩] "stale" h]
  rfl

/-- **C10.** In both AuthForm variants (the rules below are identical in the
two copies of `authFormSchema`; only the password minimum differs, which is
why it is a parameter): the `sign-up` schema rejects any submission whose
name is present but shorter than 3 characters (and one with the name
absent); the `sign-in` schema ignores the name entirely — in particular a
submission with the name absent is accepted whenever email and password
pass — and for every form type an input whose email the `z.string().email()`
validator rejects is rejected. -/
theorem C10_auth_schema_validation (emailOk : String → Bool) (passwordMin : Nat)
    (inp : AuthFormInput) :
    (∀ n, inp.name = some n → n.length < 3 →
      authFormSchemaCheck emailOk passwordMin .signUp inp = false) ∧
    (inp.name = none → authFormSchemaCheck emailOk passwordMin .signUp inp = false) ∧
    (authFormSchemaCheck emailOk passwordMin .signIn inp
      = (emailOk inp.email && decide (passwordMin ≤ inp.password.length))) ∧
    (emailOk inp.email = false →
      ∀ t : FormType, authFormSchemaCheck emailOk passwordMin t inp = false) := by
  refine ⟨?_, ?_, ?_, ?_⟩
  · intro n hn hlen
    simp [authFormSchemaCheck, hn, Nat.not_le.mpr hlen]
  · intro hn
    simp [authFormSchemaCheck, hn]
  · simp [authFormSchemaCheck]
  · intro hmail t
    cases t with
    | signIn => simp [authFormSchemaCheck, hmail]
    | signUp =>
        cases hn : inp.name with
        | none => simp [authFormSchemaCheck, hn]
        | some n => simp [authFormSchemaCheck, hn, hmail]

/-- Witness for C10: a two-character name is rejected on sign-up, an absent
name is accepted on sign-in with a valid email and password, and an invalid
email is rejected on sign-in. -/
theorem C10_auth_schema_validation_witness :
    authFormSchemaCheck (fun s => s == "a@b.c") 6 .signUp ⟨some "Al", "a@b.c", "secret1"⟩ = false ∧
    authFormSchemaCheck (fun s => s == "a@b.c") 6 .signIn ⟨none, "a@b.c", "secret1"⟩ = true ∧
    authFormSchemaCheck (fun s => s == "a@b.c") 6 .signIn ⟨none, "oops", "secret1"⟩ = false := by
  have h1 := C10_auth_schema_validation (fun s => s == "a@b.c") 6 ⟨some "Al", "a@b.c", "secret1"⟩
  have h2 := C10_auth_schema_validation (fun s => s == "a@b.c") 6 ⟨none, "a@b.c", "secret1"⟩
  have h3 := C10_auth_schema_validation (fun s => s == "a@b.c") 6 ⟨none, "oops", "secret1"⟩
  refine ⟨h1.1 "Al" rfl (by decide), ?_, h3.2.2.2 (by decide) .signIn⟩
  rw [h2.2.2.1]
  decide

end AiPrep
